import Mathlib

/-!
Verification of the linstor python API client (`linstor/linstorapi.py`)
against its natural-language specification.

Bytes are modelled as `Nat` (each < 256 where it matters), byte strings as
`List Nat`.  Pure functions of the source become Lean functions; the
receiver loop and the waiting caller become explicit step functions over
small state records.  Constants imported from `linstor.sharedconsts`
(which is not part of the sources examined here) are modelled from the
specification and marked as such.
-/

set_option autoImplicit false

namespace LinstorApi

/-- `LinstorNetClient._parse_payload_length`: the 16-byte outer header is
unpacked with format `!xxxxIxxxxxxxx`, i.e. bytes 4..7 are read as a
big-endian unsigned 32-bit payload length. -/
def parsePayloadLength (header : List Nat) : Nat :=
  header.getD 4 0 * 16777216 + header.getD 5 0 * 65536 +
    header.getD 6 0 * 256 + header.getD 7 0

/-- State of the receiver loop `LinstorNetClient.run`: the accumulation
buffer `package` and the expected payload length `exp_pkg_len`
(0 meaning "not yet known", exactly as in the source, where
`exp_pkg_len = 0` doubles as falsy). -/
structure RecvState where
  package : List Nat
  expPkgLen : Nat
  deriving DecidableEq, Repr

/-- One readable iteration of the receiver loop (`run`, lines 260-274):
append the bytes returned by `recv` to the buffer, decode the expected
payload length once at least 16 bytes are present and it is still 0,
and dispatch the whole buffer as one frame exactly when
`exp_pkg_len != 0 and pkg_len == exp_pkg_len + 16`, resetting both state
variables.  Returns the new state and the dispatched frame, if any. -/
def recvStep (read : List Nat) (s : RecvState) : RecvState × Option (List Nat) :=
  let package := s.package ++ read
  let pkgLen := package.length
  let expPkgLen :=
    if pkgLen > 15 ∧ s.expPkgLen = 0 then parsePayloadLength (package.take 16)
    else s.expPkgLen
  if expPkgLen ≠ 0 ∧ pkgLen = expPkgLen + 16 then
    (⟨[], 0⟩, some package)
  else
    (⟨package, expPkgLen⟩, none)

/-- Iterate `recvStep` over a sequence of reads, collecting every
dispatched frame. -/
def recvRun : List (List Nat) → RecvState → RecvState × List (List Nat)
  | [], s => (s, [])
  | r :: rs, s =>
    let step := recvStep r s
    let rest := recvRun rs step.1
    (rest.1, step.2.toList ++ rest.2)

/-- The `while self._socket:` loop of `run` keeps iterating exactly while
the session socket is present. -/
def loopContinues (sock : Option Unit) : Bool :=
  sock.isSome

/-- `LinstorNetClient.connected`: the socket is not `None`. -/
def connected (sock : Option Unit) : Bool :=
  sock.isSome

/-- One outer iteration of `run` when `select` reported the socket
readable and `recv` returned `read`: under the lock, if the socket was
closed by another thread the iteration does nothing (`break`); otherwise
the bytes are accumulated via `recvStep`.  The loop body never assigns
`self._socket`, so the socket field is returned unchanged when present. -/
def runIteration (sock : Option Unit) (read : List Nat) (s : RecvState) :
    Option Unit × RecvState × Option (List Nat) :=
  match sock with
  | none => (none, s, none)
  | some _ =>
    let step := recvStep read s
    (some (), step.1, step.2)

/-- Big-endian 32-bit encoding, as produced by `struct.pack("!I", n)`. -/
def be32 (n : Nat) : List Nat :=
  [n / 16777216 % 256, n / 65536 % 256, n / 256 % 256, n % 256]

/-- Protobuf base-128 varint encoding (`encoder._VarintBytes`):
little-endian 7-bit groups, high bit set on every byte but the last.
`fuel` only bounds the recursion: the value shrinks by a factor 128
each round, so starting the fuel at the value itself always suffices. -/
def encodeVarintAux : Nat → Nat → List Nat
  | 0, n => [n % 128]
  | fuel + 1, n => if n < 128 then [n] else (n % 128 + 128) :: encodeVarintAux fuel (n / 128)

/-- Protobuf base-128 varint encoding of `n`. -/
def encodeVarint (n : Nat) : List Nat :=
  encodeVarintAux n n

/-- The inner payload built by `send_msgs`: each serialized message is
prefixed with the varint of its length and the segments are
concatenated, header sub-message first. -/
def encodePayload (headerSer : List Nat) (bodies : List (List Nat)) : List Nat :=
  encodeVarint headerSer.length ++ headerSer ++
    bodies.foldr (fun b acc => encodeVarint b.length ++ b ++ acc) []

/-- The full wire frame built by `send_msgs`: 4 zero bytes (`h_type`),
the big-endian 32-bit payload length, 8 zero bytes (`h_reserved`),
then the inner payload. -/
def encodeFrame (headerSer : List Nat) (bodies : List (List Nat)) : List Nat :=
  let msgSer := encodePayload headerSer bodies
  be32 0 ++ be32 msgSer.length ++ (be32 0 ++ be32 0) ++ msgSer

/-- The write loop of `send_msgs` (lines 344-348):

    sent = 0
    while sent < msg_len:
        sent += self._socket.send(full_msg)

Each call to `socket.send` accepts some number of bytes of the buffer it
was handed and puts that prefix on the wire.  `accepts` lists how many
bytes each successive `send` call would accept; a call never accepts
more than the buffer it is given.  The source passes `full_msg` — the
whole frame from offset 0 — to every call.  Returns the bytes that went
on the wire, or `none` if the schedule is exhausted before the loop
exits. -/
def sendLoop (fullMsg : List Nat) : Nat → List Nat → Option (List Nat)
  | sent, accepts =>
    if fullMsg.length ≤ sent then some []
    else
      match accepts with
      | [] => none
      | a :: rest =>
        let acc := min a fullMsg.length
        (sendLoop fullMsg (sent + acc) rest).map (fun w => fullMsg.take acc ++ w)

/-- Errors raised while splitting the inner payload: `indexError` is the
`IndexError` raised by the protobuf varint decoder when it reads past
the end of the buffer, `tooManyBytes` its `_DecodeError` when the shift
reaches 64. -/
inductive SplitErr where
  | indexError
  | tooManyBytes
  deriving DecidableEq, Repr

/-- Decidable equality on `Except` results, so that concrete runs of the
fallible functions below can be settled by `decide`. -/
instance exceptDecEq {ε α : Type} [DecidableEq ε] [DecidableEq α] :
    DecidableEq (Except ε α) := fun x y =>
  match x, y with
  | .error a, .error b =>
    if h : a = b then .isTrue (by rw [h]) else .isFalse (fun he => h (Except.error.inj he))
  | .error _, .ok _ => .isFalse (fun he => Except.noConfusion he)
  | .ok _, .error _ => .isFalse (fun he => Except.noConfusion he)
  | .ok a, .ok b =>
    if h : a = b then .isTrue (by rw [h]) else .isFalse (fun he => h (Except.ok.inj he))

/-- Loop body of protobuf's `_VarintDecoder` with the 32-bit mask
(`decoder._DecodeVarint32`): read a byte (raising `IndexError` past the
end), accumulate its low 7 bits at the current shift, stop when the
continuation bit is clear, masking the result to 32 bits; raise once the
shift reaches 64.  The shift grows by 7 each round and the loop aborts
at shift 64, so 10 rounds always suffice; `fuel` only bounds the
recursion and is never exhausted when started at 10. -/
def decodeVarintAux (payload : List Nat) :
    Nat → Nat → Nat → Nat → Except SplitErr (Nat × Nat)
  | fuel, pos, result, shift =>
    match payload.get? pos with
    | none => .error .indexError
    | some b =>
      let result := result ||| (b &&& 127) <<< shift
      if b &&& 128 = 0 then .ok (result &&& (2 ^ 32 - 1), pos + 1)
      else if shift + 7 ≥ 64 then .error .tooManyBytes
      else
        match fuel with
        | 0 => .error .tooManyBytes
        | f + 1 => decodeVarintAux payload f (pos + 1) result (shift + 7)

/-- `decoder._DecodeVarint32 payload pos`: decoded value and new position. -/
def decodeVarint32 (payload : List Nat) (pos : Nat) : Except SplitErr (Nat × Nat) :=
  decodeVarintAux payload 10 pos 0 0

/-- Loop of `LinstorNetClient._split_proto_msgs`: while `n < len(payload)`
decode a varint length at `n`, slice `payload[n:n+msg_len]` (a python
slice, which silently stops at the end of the buffer) and advance `n`
past the declared length.  Each round advances `n` by at least one, so
`payload.length` rounds suffice; `fuel` only bounds the recursion. -/
def splitAux (payload : List Nat) : Nat → Nat → Except SplitErr (List (List Nat))
  | fuel, n =>
    if n < payload.length then
      match decodeVarint32 payload n with
      | .error e => .error e
      | .ok (msgLen, newPos) =>
        let msgBuf := (payload.drop newPos).take msgLen
        match fuel with
        | 0 => .error .indexError
        | f + 1 => (splitAux payload f (newPos + msgLen)).map (msgBuf :: ·)
    else .ok []

/-- `LinstorNetClient._split_proto_msgs payload`. -/
def splitProtoMsgs (payload : List Nat) : Except SplitErr (List (List Nat)) :=
  splitAux payload payload.length 0

/-- Modelled from the spec: the category mask `MASK_ERROR` of
`linstor.sharedconsts` is not among the sources examined; the spec
specifies three disjoint 64-bit category masks, represented here as
distinct single high bits. -/
def MASK_ERROR : Nat := 2 ^ 63

/-- Modelled from the spec: the category mask `MASK_WARN` of
`linstor.sharedconsts`, disjoint from the other two masks. -/
def MASK_WARN : Nat := 2 ^ 62

/-- Modelled from the spec: the category mask `MASK_INFO` of
`linstor.sharedconsts`, disjoint from the other two masks. -/
def MASK_INFO : Nat := 2 ^ 61

/-- `ApiCallResponse.is_error`: all bits of `MASK_ERROR` present. -/
def is_error (rc : Nat) : Bool :=
  rc &&& MASK_ERROR == MASK_ERROR

/-- `ApiCallResponse.is_warning`: all bits of `MASK_WARN` present. -/
def is_warning (rc : Nat) : Bool :=
  rc &&& MASK_WARN == MASK_WARN

/-- `ApiCallResponse.is_info`: all bits of `MASK_INFO` present. -/
def is_info (rc : Nat) : Bool :=
  rc &&& MASK_INFO == MASK_INFO

/-- `ApiCallResponse.is_success`: none of the three categories. -/
def is_success (rc : Nat) : Bool :=
  !is_error rc && !is_warning rc && !is_info rc

/-- `AtomicInt.get_and_inc` on the value held by the counter: return the
current value and advance by one (the python method performs the two
steps under an `RLock`, so the pair is one atomic state update). -/
def getAndInc (val : Nat) : Nat × Nat :=
  (val, val + 1)

/-- The ids handed out by `k` successive `send_msgs` calls when the
counter currently holds `val`: each call draws its header's `msg_id`
from `AtomicInt.get_and_inc`.  The client constructs the counter as
`AtomicInt(1)`. -/
def msgIdSeq : Nat → Nat → List Nat
  | 0, _ => []
  | k + 1, val =>
    let draw := getAndInc val
    draw.1 :: msgIdSeq k draw.2

/-- What `wait_for_result` observes each time it holds the condition
lock: the reply table `self._replies` (an association list keyed by
message id; the receiver's dict assignment keeps one entry per key) and
the `connected` predicate. -/
structure SessionView where
  replies : List (Nat × List (List Nat))
  conn : Bool
  deriving DecidableEq, Repr

/-- `self._replies.pop(msg_id)`: remove the entry for the key. -/
def removeReply (msgId : Nat) (tbl : List (Nat × List (List Nat))) :
    List (Nat × List (List Nat)) :=
  tbl.filter (fun p => p.1 ≠ msgId)

/-- `LinstorNetClient.wait_for_result` over the sequence of session
states it observes, one per wakeup of `self._cv_sock.wait(1)`: while the
id is absent from the reply table, return `[]` as soon as the session is
seen disconnected; once the id is present, pop and return the deposited
list.  The result pairs the returned reply list with the reply table
after the call; `none` means the trace ended with the caller still
blocked. -/
def waitForResult (msgId : Nat) :
    List SessionView → Option (List (List Nat) × List (Nat × List (List Nat)))
  | [] => none
  | v :: rest =>
    match v.replies.lookup msgId with
    | some r => some (r, removeReply msgId v.replies)
    | none => if v.conn then waitForResult msgId rest else some ([], v.replies)

/-- Modelled from the spec: `DFLT_CTRL_PORT_PLAIN` of
`linstor.sharedconsts` is not among the sources examined; the spec says
the controller plain-TCP port is a fixed value distinct from the other
default ports. -/
def DFLT_CTRL_PORT_PLAIN : Nat := 3376

/-- Modelled from the spec: `DFLT_CTRL_PORT_SSL` of
`linstor.sharedconsts`, the controller TLS port, distinct from the
other default ports. -/
def DFLT_CTRL_PORT_SSL : Nat := 3377

/-- Modelled from the spec: `DFLT_STLT_PORT_PLAIN` of
`linstor.sharedconsts`, the satellite plain-TCP port, distinct from
the other default ports. -/
def DFLT_STLT_PORT_PLAIN : Nat := 3366

/-- Scheme validation and port defaulting of `LinstorNetClient.connect`
(lines 216-221), before any socket is opened: reject the scheme with a
`LinstorError` (the spec's `ConfigError`) unless it starts with
`linstor` (python `url.scheme.startswith('linstor')`, embedded on the
character lists); when the authority carries no port, default to the
TLS port exactly for the scheme `linstor+ssl` and to the plain port for
every other accepted scheme. -/
def connectPort (scheme : String) (port : Option Nat) : Except String Nat :=
  if ¬ "linstor".data.isPrefixOf scheme.data then
    .error "ConfigError: unknown uri scheme"
  else
    match port with
    | some p => .ok p
    | none =>
      .ok (if scheme = "linstor+ssl" then DFLT_CTRL_PORT_SSL else DFLT_CTRL_PORT_PLAIN)

/-- Modelled from the spec: the distinguished api-call tag `API_VERSION`
of `linstor.sharedconsts`; its concrete string is immaterial, only its
distinctness from the reply tags below matters. -/
def API_VERSION : String := "ApiVersion"

/-- Modelled from the spec: the reply api-call tags of
`linstor.sharedconsts` that appear as keys of the receiver's
`reply_map` (lines 279-286), all distinct from `API_VERSION`. -/
def replyTags : List String :=
  ["Reply", "LstStorPoolDfn", "LstStorPool", "LstNode", "LstRscDfn", "LstRsc"]

/-- Outcome of handling one extracted frame in `run` (lines 288-298). -/
inductive DispatchOutcome where
  | assertionFailure
  | deposited (msgId : Nat)
  | droppedUnknown
  deriving DecidableEq, Repr

/-- The receiver-visible session state: the socket and the reply table. -/
structure NetSession where
  socket : Option Unit
  replies : List (Nat × List (List Nat))
  deriving DecidableEq, Repr

/-- Handling of one extracted frame by `run` (lines 288-298), given the
header's api-call tag and msg id and the parsed body messages: an
`API_VERSION` tag after handshake runs `assert False`, which raises out
of the thread leaving the session state untouched; a tag of the
`reply_map` deposits the bodies under the msg id and notifies; any other
tag is logged and the frame dropped. -/
def dispatchFrame (apiCall : String) (msgId : Nat) (bodies : List (List Nat))
    (s : NetSession) : DispatchOutcome × NetSession :=
  if apiCall = API_VERSION then
    (.assertionFailure, s)
  else if apiCall ∈ replyTags then
    (.deposited msgId, { s with replies := (msgId, bodies) :: s.replies })
  else
    (.droppedUnknown, s)

/-- Modelled from the spec: `VAL_NETCOM_TYPE_PLAIN` of
`linstor.sharedconsts`; its concrete string is immaterial, only its
distinctness from the SSL value matters. -/
def VAL_NETCOM_TYPE_PLAIN : String := "Plain"

/-- Modelled from the spec: `VAL_NETCOM_TYPE_SSL` of
`linstor.sharedconsts`. -/
def VAL_NETCOM_TYPE_SSL : String := "SSL"

/-- Modelled from the spec: `VAL_NODE_TYPE_CTRL` of
`linstor.sharedconsts`, the controller node type. -/
def VAL_NODE_TYPE_CTRL : String := "Controller"

/-- The network-interface member of a `MsgCrtNode`: protobuf optional
fields `stlt_port` and `stlt_encryption_type` are unset unless
assigned. -/
structure NetIfMsg where
  name : String
  address : String
  stlt_port : Option Nat := none
  stlt_encryption_type : Option String := none
  deriving DecidableEq, Repr

/-- The `MsgCrtNode` protobuf message as filled in by
`Linstor.node_create`: node name, node type, and the single network
interface added to `msg.node.net_interfaces`. -/
structure CrtNodeMsg where
  node_name : String
  node_type : String
  netif : NetIfMsg
  deriving DecidableEq, Repr

/-- `Linstor.node_create` (lines 386-414), up to the message it hands to
`send_msg`: build the node and its interface; only when `port is None`
compute a default port from the communication type (plain: controller
or satellite port by node type; SSL: controller TLS port; anything
else raises a `LinstorError`) and only then assign the interface's
`stlt_port` and `stlt_encryption_type`. -/
def node_create (node_name node_type ip com_type : String) (port : Option Nat)
    (netif_name : String) : Except String CrtNodeMsg :=
  let netif : NetIfMsg := { name := netif_name, address := ip }
  match port with
  | some _ => .ok { node_name := node_name, node_type := node_type, netif := netif }
  | none =>
    if com_type = VAL_NETCOM_TYPE_PLAIN then
      let p := if node_type = VAL_NODE_TYPE_CTRL then DFLT_CTRL_PORT_PLAIN
               else DFLT_STLT_PORT_PLAIN
      .ok { node_name := node_name, node_type := node_type,
            netif := { netif with stlt_port := some p,
                                  stlt_encryption_type := some com_type } }
    else if com_type = VAL_NETCOM_TYPE_SSL then
      .ok { node_name := node_name, node_type := node_type,
            netif := { netif with stlt_port := some DFLT_CTRL_PORT_SSL,
                                  stlt_encryption_type := some com_type } }
    else
      .error "Communication type has no default port"

/-- Concrete receiver input: a complete 17-byte frame with payload
length 1 (16-byte header declaring N = 1, one payload byte) followed by
one byte of the next frame, all delivered by a single `recv`. -/
def frame18 : List Nat :=
  [0, 0, 0, 0, 0, 0, 0, 1, 0, 0, 0, 0, 0, 0, 0, 0, 7, 9]

/-- Concrete sender frame: a header-only frame whose serialized header
sub-message is the two bytes `[10, 20]`; its inner payload is
`[2, 10, 20]`, hence N = 3 and the frame has 19 bytes. -/
def frameC2 : List Nat := encodeFrame [10, 20] []

/-! ## Theorems -/

/-- Helper: when the expected payload length is known and the buffer
already holds strictly more than `exp_pkg_len + 16` bytes, a receiver
step only appends the new bytes and dispatches nothing. -/
theorem recvStep_overshoot (read : List Nat) (s : RecvState)
    (h1 : s.expPkgLen ≠ 0) (h2 : s.expPkgLen + 16 < s.package.length) :
    recvStep read s = (⟨s.package ++ read, s.expPkgLen⟩, none) := by
  have h3 : ¬ s.package.length + read.length = s.expPkgLen + 16 := by omega
  simp [recvStep, h1, h3]

/-- Helper: from an overshot state no sequence of further reads ever
dispatches a frame. -/
theorem recvRun_overshoot (reads : List (List Nat)) (s : RecvState)
    (h1 : s.expPkgLen ≠ 0) (h2 : s.expPkgLen + 16 < s.package.length) :
    (recvRun reads s).2 = [] := by
  induction reads generalizing s with
  | nil => rfl
  | cons r rs ih =>
    have hstep := recvStep_overshoot r s h1 h2
    have hlen : s.expPkgLen + 16 < (s.package ++ r).length := by
      rw [List.length_append]; omega
    simp [recvRun, hstep]
    exact ih ⟨s.package ++ r, s.expPkgLen⟩ h1 hlen

/-- C1: refuted as stated — the receiver dispatches a frame only when
the buffer length equals `16 + N` exactly (`pkg_len == exp_pkg_len + 16`).
When one `recv` delivers a complete 17-byte frame (N = 1) plus one byte
of the next frame, the step dispatches nothing and keeps all 18 bytes,
and from that state no sequence of further reads ever dispatches a
frame: the complete frame is lost and no excess is retained for the
next frame. -/
theorem recv_coalesced_frame_never_dispatched :
    parsePayloadLength (frame18.take 16) = 1 ∧
    frame18.length = 16 + 1 + 1 ∧
    recvStep frame18 ⟨[], 0⟩ = (⟨frame18, 1⟩, none) ∧
    ∀ reads : List (List Nat), (recvRun reads ⟨frame18, 1⟩).2 = [] := by
  refine ⟨by decide, by decide, by decide, fun reads => ?_⟩
  exact recvRun_overshoot reads ⟨frame18, 1⟩ (by decide) (by decide)

/-- C2: refuted as stated — the retry loop of `send_msgs` passes
`full_msg` (the whole frame, from offset 0) to every `socket.send`
call instead of resuming at the first unaccepted byte.  On a 19-byte
frame whose first `send` accepts 1 byte and whose second accepts 19,
the loop exits having put 20 bytes on the wire: the first byte is
duplicated and the wire bytes are not the encoded frame, so they do
not satisfy `len(F) == 16 + N`. -/
theorem send_short_write_duplicates_bytes :
    frameC2.length = 16 + 3 ∧
    parsePayloadLength (frameC2.take 16) = 3 ∧
    sendLoop frameC2 0 [1, 19] = some (frameC2.take 1 ++ frameC2) ∧
    frameC2.take 1 ++ frameC2 ≠ frameC2 ∧
    (frameC2.take 1 ++ frameC2).length ≠ 16 + parsePayloadLength (frameC2.take 16) := by
  decide

/-- C3: refuted as stated — when `recv` reports EOF (an empty read)
on a connected session, the receiver iteration leaves the socket set
(it is never assigned in the loop body), so the loop keeps running and
`connected` stays true: the socket is not set to none, no waiter is
released, and the loop does not exit. -/
theorem recv_eof_leaves_session_connected :
    runIteration (some ()) [] ⟨[], 0⟩ = (some (), ⟨[], 0⟩, none) ∧
    loopContinues (some ()) = true ∧
    connected (some ()) = true := by
  decide

/-- C4: refuted as stated — a declared sub-message length exceeding the
remaining bytes is not an error: on the payload `[5, 1]` (varint length
5, one remaining byte) the split succeeds and returns the single byte
as a sub-message of length 1, silently truncated against the declared
length 5, with no check that the final position matches the buffer
length. -/
theorem split_truncated_submsg_accepted :
    splitProtoMsgs [5, 1] = .ok [[1]] ∧ [1].length < 5 := by
  decide

/-- Helper: decoding a varint consisting of a single byte `L < 128`. -/
theorem decodeVarint32_single (L : Nat) (bs : List Nat) (hL : L < 128) :
    decodeVarint32 (L :: bs) 0 = .ok (L, 1) := by
  have h127 : L &&& 127 = L := by
    have h : (127 : Nat) = 2 ^ 7 - 1 := by norm_num
    rw [h, Nat.and_pow_two_sub_one_eq_mod, Nat.mod_eq_of_lt (by omega)]
  have h128 : L &&& 128 = 0 := by
    have h : (128 : Nat) = 2 ^ 7 := by norm_num
    rw [h, Nat.and_two_pow, Nat.testBit_eq_false_of_lt (by omega)]
    rfl
  have h32 : L &&& 4294967295 = L := by
    have h : (4294967295 : Nat) = 2 ^ 32 - 1 := by norm_num
    rw [h, Nat.and_pow_two_sub_one_eq_mod, Nat.mod_eq_of_lt (by omega)]
  unfold decodeVarint32 decodeVarintAux
  simp [h127, h128, h32, Nat.shiftLeft_zero, Nat.zero_or]

set_option maxRecDepth 4000 in
/-- C4 amended: splitting does fail when a varint length prefix runs off
the end of the buffer (a byte with the continuation bit set at the last
position raises the decoder's index error); but a declared sub-message
length `L` exceeding the remaining bytes is not detected: the remaining
bytes are returned as a silently truncated sub-message, and the final
scan position is allowed to run past the buffer length without any
error. -/
theorem split_amended_behavior :
    (∀ b : Nat, b < 256 → 128 ≤ b → splitProtoMsgs [b] = .error .indexError) ∧
    (∀ (L : Nat) (bs : List Nat), L < 128 → bs.length < L →
      splitProtoMsgs (L :: bs) = .ok [bs]) := by
  constructor
  · decide
  · intro L bs hL hlen
    unfold splitProtoMsgs
    have hlen1 : (L :: bs).length = bs.length + 1 := by simp
    rw [hlen1]
    unfold splitAux
    rw [if_pos (by simp)]
    rw [decodeVarint32_single L bs hL]
    simp only []
    unfold splitAux
    rw [if_neg (by simp; omega)]
    simp [List.take_of_length_le (Nat.le_of_lt hlen), Except.map]

/-- Witness for `split_amended_behavior`: a lone continuation byte is
rejected, and a declared length 5 with only three bytes left yields the
three bytes as a truncated sub-message. -/
theorem split_amended_behavior_witness :
    splitProtoMsgs [128] = .error .indexError ∧
    splitProtoMsgs [5, 1, 2, 3] = .ok [[1, 2, 3]] :=
  ⟨split_amended_behavior.1 128 (by decide) (by decide),
   split_amended_behavior.2 5 [1, 2, 3] (by decide) (by decide)⟩

/-- C5: refuted as stated — the four predicates are independent mask
tests, not a short-circuiting classification: the 64-bit return code
carrying both the error and the warning mask satisfies `is_error` and
`is_warning` at once, so exactly one of the four predicates does not
hold for every 64-bit code. -/
theorem retcode_two_categories_at_once :
    MASK_ERROR ||| MASK_WARN < 2 ^ 64 ∧
    is_error (MASK_ERROR ||| MASK_WARN) = true ∧
    is_warning (MASK_ERROR ||| MASK_WARN) = true ∧
    is_success (MASK_ERROR ||| MASK_WARN) = false := by
  decide

/-- C5 amended: `is_success` holds exactly when none of `is_error`,
`is_warning`, `is_info` holds, so at least one of the four predicates
is true for every return code and success excludes the other three;
but the three category predicates themselves are not mutually
exclusive. -/
theorem retcode_classifier_amended :
    ∀ rc : Nat,
      (is_success rc = true ↔
        is_error rc = false ∧ is_warning rc = false ∧ is_info rc = false) ∧
      (is_error rc || is_warning rc || is_info rc || is_success rc) = true := by
  intro rc
  cases he : is_error rc <;> cases hw : is_warning rc <;> cases hi : is_info rc <;>
    simp [is_success, he, hw, hi]

/-- Helper: the id handed out by the `i`-th draw from a counter holding
`s` is `s + i`. -/
theorem msgIdSeq_getD (k : Nat) :
    ∀ s i : Nat, i < k → (msgIdSeq k s).getD i 0 = s + i := by
  induction k with
  | zero => intro s i h; omega
  | succ n ih =>
    intro s i h
    cases i with
    | zero => simp [msgIdSeq, getAndInc]
    | succ j =>
      have h2 := ih (s + 1) j (by omega)
      simp only [msgIdSeq, getAndInc, List.getD_cons_succ]
      omega

/-- Helper: every id drawn from a counter holding `s` is at least `s`. -/
theorem msgIdSeq_mem_le (k : Nat) :
    ∀ s x : Nat, x ∈ msgIdSeq k s → s ≤ x := by
  induction k with
  | zero => intro s x h; simp [msgIdSeq] at h
  | succ n ih =>
    intro s x h
    simp [msgIdSeq, getAndInc] at h
    rcases h with h | h
    · omega
    · have := ih (s + 1) x h; omega

/-- Helper: the ids drawn from a counter are pairwise distinct. -/
theorem msgIdSeq_nodup (k : Nat) : ∀ s : Nat, (msgIdSeq k s).Nodup := by
  induction k with
  | zero => intro s; simp [msgIdSeq]
  | succ n ih =>
    intro s
    simp only [msgIdSeq, getAndInc, List.nodup_cons]
    exact ⟨fun hmem => by have := msgIdSeq_mem_le n (s + 1) s hmem; omega, ih (s + 1)⟩

/-- C6: the message-id counter is constructed as `AtomicInt(1)` and
each send draws `get_and_inc`, so among any `k` sends the first id is
1, the id of an earlier send is strictly smaller than that of a later
send, and no id is handed out twice (the python draw happens under the
counter's lock, so it is modelled as one atomic state update). -/
theorem msg_ids_start_one_strictly_increasing (k i j : Nat)
    (hij : i < j) (hjk : j < k) :
    (msgIdSeq k 1).getD 0 0 = 1 ∧
    (msgIdSeq k 1).getD i 0 < (msgIdSeq k 1).getD j 0 ∧
    (msgIdSeq k 1).Nodup := by
  refine ⟨?_, ?_, msgIdSeq_nodup k 1⟩
  · rw [msgIdSeq_getD k 1 0 (by omega)]
  · rw [msgIdSeq_getD k 1 i (by omega), msgIdSeq_getD k 1 j hjk]; omega

/-- Witness for `msg_ids_start_one_strictly_increasing` at `k = 3`,
`i = 0`, `j = 1`. -/
theorem msg_ids_start_one_strictly_increasing_witness :
    (msgIdSeq 3 1).getD 0 0 = 1 ∧
    (msgIdSeq 3 1).getD 0 0 < (msgIdSeq 3 1).getD 1 0 ∧
    (msgIdSeq 3 1).Nodup :=
  msg_ids_start_one_strictly_increasing 3 0 1 (by decide) (by decide)

/-- Helper: after `pop`, the reply table holds no entry for the id. -/
theorem removeReply_lookup (msgId : Nat) (tbl : List (Nat × List (List Nat))) :
    (removeReply msgId tbl).lookup msgId = none := by
  induction tbl with
  | nil => rfl
  | cons p ps ih =>
    by_cases h : p.1 = msgId
    · simpa [removeReply, List.filter_cons, h] using ih
    · have hbeq : (msgId == p.1) = false := by simp [Ne.symm h]
      simpa [removeReply, List.filter_cons, h, List.lookup, hbeq] using ih

/-- C7: `wait_for_result` checks the reply table before the `connected`
flag on every wakeup — if the id is absent and the session is (or has
become) disconnected it returns the empty list instead of blocking; if
the reply was deposited it removes the entry and returns it (and the id
is gone from the table); and wakeups that find the session connected
with no reply just keep waiting, so a later disconnected state is
observed. -/
theorem wait_for_result_cases (msgId : Nat) (v : SessionView)
    (rest : List SessionView) :
    (v.replies.lookup msgId = none → v.conn = false →
      waitForResult msgId (v :: rest) = some ([], v.replies)) ∧
    (∀ r, v.replies.lookup msgId = some r →
      waitForResult msgId (v :: rest) = some (r, removeReply msgId v.replies) ∧
      (removeReply msgId v.replies).lookup msgId = none) ∧
    (∀ pre : List SessionView,
      (∀ u ∈ pre, u.replies.lookup msgId = none ∧ u.conn = true) →
      waitForResult msgId (pre ++ v :: rest) = waitForResult msgId (v :: rest)) := by
  refine ⟨fun h1 h2 => by simp [waitForResult, h1, h2], ?_, ?_⟩
  · intro r h
    exact ⟨by simp [waitForResult, h], removeReply_lookup msgId v.replies⟩
  · intro pre hpre
    induction pre with
    | nil => rfl
    | cons u us ih =>
      have hu := hpre u (by simp)
      have hus : ∀ w ∈ us, w.replies.lookup msgId = none ∧ w.conn = true :=
        fun w hw => hpre w (List.mem_cons_of_mem u hw)
      simp [waitForResult, hu.1, hu.2]
      exact ih hus

/-- Witness for `wait_for_result_cases`: a disconnected view with no
deposit yields the empty list; a deposited view yields the deposit with
the entry removed; a connected no-reply view is skipped. -/
theorem wait_for_result_cases_witness :
    waitForResult 1 [⟨[], false⟩] = some ([], []) ∧
    waitForResult 2 [⟨[(2, [[7]])], true⟩] = some ([[7]], []) ∧
    waitForResult 1 [⟨[], true⟩, ⟨[], false⟩] = waitForResult 1 [⟨[], false⟩] :=
  ⟨(wait_for_result_cases 1 ⟨[], false⟩ []).1 rfl rfl,
   ((wait_for_result_cases 2 ⟨[(2, [[7]])], true⟩ []).2.1 [[7]] rfl).1,
   (wait_for_result_cases 1 ⟨[], false⟩ []).2.2 [⟨[], true⟩] (by decide)⟩

/-- C8: refuted as stated — `connect` only tests
`url.scheme.startswith('linstor')`, so the scheme `linstorx`, which is
neither of the two known schemes, is not rejected: it is accepted and
silently defaulted to the controller plain port. -/
theorem connect_accepts_unknown_linstor_scheme :
    ("linstorx" : String) ≠ "linstor" ∧ ("linstorx" : String) ≠ "linstor+ssl" ∧
    connectPort "linstorx" none = .ok DFLT_CTRL_PORT_PLAIN := by
  decide

/-- C8 amended: `connect` rejects with a `ConfigError` exactly the
schemes that do not start with `linstor`, before opening any socket;
every scheme starting with `linstor` is accepted, and when no explicit
port is given the scheme `linstor+ssl` defaults to the controller TLS
port while every other accepted scheme defaults to the controller
plain port. -/
theorem connect_scheme_amended (scheme : String) (port : Option Nat) :
    ("linstor".data.isPrefixOf scheme.data = false →
      connectPort scheme port = .error "ConfigError: unknown uri scheme") ∧
    ("linstor".data.isPrefixOf scheme.data = true →
      (∀ p, connectPort scheme (some p) = .ok p) ∧
      connectPort scheme none =
        .ok (if scheme = "linstor+ssl" then DFLT_CTRL_PORT_SSL
             else DFLT_CTRL_PORT_PLAIN)) := by
  constructor
  · intro h; simp [connectPort, h]
  · intro h
    exact ⟨fun p => by simp [connectPort, h], by simp [connectPort, h]⟩

/-- Witness for `connect_scheme_amended`: `http` is rejected, the two
documented schemes default to their respective ports, and an explicit
port is kept. -/
theorem connect_scheme_amended_witness :
    connectPort "http" none = .error "ConfigError: unknown uri scheme" ∧
    connectPort "linstor" none = .ok DFLT_CTRL_PORT_PLAIN ∧
    connectPort "linstor+ssl" none = .ok DFLT_CTRL_PORT_SSL ∧
    connectPort "linstor" (some 9999) = .ok 9999 :=
  ⟨(connect_scheme_amended "http" none).1 (by decide),
   (((connect_scheme_amended "linstor" none).2 (by decide)).2).trans (by decide),
   (((connect_scheme_amended "linstor+ssl" none).2 (by decide)).2).trans (by decide),
   ((connect_scheme_amended "linstor" (some 9999)).2 (by decide)).1 9999⟩

/-- C9: refuted as stated — an `API_VERSION` frame after handshake hits
`assert False`, which terminates the receiver thread without touching
the session: the frame is not deposited as a reply, but the socket is
left in place, so the session does not transition to disconnected
(`connected` stays true) and pending waiters are not released. -/
theorem api_version_after_handshake_keeps_connected :
    dispatchFrame API_VERSION 5 [[1]] ⟨some (), []⟩ =
      (.assertionFailure, ⟨some (), []⟩) ∧
    connected (NetSession.mk (some ()) []).socket = true := by
  decide

/-- C9 amended: an `API_VERSION` frame arriving after the handshake is
fatal to the receiver — it is never processed as a normal reply and the
receiver dies by assertion failure — but the session state is left
untouched: the socket stays set (so `connected` remains true) and the
reply table is unchanged, so pending waiters are not released. -/
theorem api_version_after_handshake_amended (msgId : Nat)
    (bodies : List (List Nat)) (s : NetSession) :
    dispatchFrame API_VERSION msgId bodies s = (.assertionFailure, s) := by
  simp [dispatchFrame]

/-- C10: with an explicit non-`None` port argument `node_create` leaves
the interface's `stlt_port` and `stlt_encryption_type` unset (the
explicit port is never stored); the two fields are assigned only on the
defaulting path taken when the port is `None`: controller-plain or
satellite-plain for the plain communication type depending on the node
type, controller-TLS for the SSL type, and a `LinstorError` for any
other communication type. -/
theorem node_create_port_fields (nn nt ip ct nif : String) :
    (∀ p, node_create nn nt ip ct (some p) nif =
      .ok ⟨nn, nt, ⟨nif, ip, none, none⟩⟩) ∧
    (ct = VAL_NETCOM_TYPE_PLAIN → nt = VAL_NODE_TYPE_CTRL →
      node_create nn nt ip ct none nif =
        .ok ⟨nn, nt, ⟨nif, ip, some DFLT_CTRL_PORT_PLAIN, some ct⟩⟩) ∧
    (ct = VAL_NETCOM_TYPE_PLAIN → nt ≠ VAL_NODE_TYPE_CTRL →
      node_create nn nt ip ct none nif =
        .ok ⟨nn, nt, ⟨nif, ip, some DFLT_STLT_PORT_PLAIN, some ct⟩⟩) ∧
    (ct = VAL_NETCOM_TYPE_SSL →
      node_create nn nt ip ct none nif =
        .ok ⟨nn, nt, ⟨nif, ip, some DFLT_CTRL_PORT_SSL, some ct⟩⟩) ∧
    (ct ≠ VAL_NETCOM_TYPE_PLAIN → ct ≠ VAL_NETCOM_TYPE_SSL →
      node_create nn nt ip ct none nif =
        .error "Communication type has no default port") := by
  refine ⟨fun p => rfl, ?_, ?_, ?_, ?_⟩
  · intro h1 h2; simp [node_create, h1, h2]
  · intro h1 h2; simp [node_create, h1, h2]
  · intro h1
    have hne : VAL_NETCOM_TYPE_SSL ≠ VAL_NETCOM_TYPE_PLAIN := by decide
    simp [node_create, h1, hne]
  · intro h1 h2; simp [node_create, h1, h2]

/-- Witness for `node_create_port_fields`: one call per branch. -/
theorem node_create_port_fields_witness :
    node_create "n" "Satellite" "10.0.0.1" "Plain" (some 99) "default" =
      .ok ⟨"n", "Satellite", ⟨"default", "10.0.0.1", none, none⟩⟩ ∧
    node_create "n" "Controller" "10.0.0.1" "Plain" none "default" =
      .ok ⟨"n", "Controller",
           ⟨"default", "10.0.0.1", some DFLT_CTRL_PORT_PLAIN, some "Plain"⟩⟩ ∧
    node_create "n" "Satellite" "10.0.0.1" "Plain" none "default" =
      .ok ⟨"n", "Satellite",
           ⟨"default", "10.0.0.1", some DFLT_STLT_PORT_PLAIN, some "Plain"⟩⟩ ∧
    node_create "n" "Satellite" "10.0.0.1" "SSL" none "default" =
      .ok ⟨"n", "Satellite",
           ⟨"default", "10.0.0.1", some DFLT_CTRL_PORT_SSL, some "SSL"⟩⟩ ∧
    node_create "n" "Satellite" "10.0.0.1" "Bogus" none "default" =
      .error "Communication type has no default port" :=
  ⟨(node_create_port_fields "n" "Satellite" "10.0.0.1" "Plain" "default").1 99,
   (node_create_port_fields "n" "Controller" "10.0.0.1" "Plain" "default").2.1 rfl rfl,
   (node_create_port_fields "n" "Satellite" "10.0.0.1" "Plain" "default").2.2.1 rfl
     (by decide),
   (node_create_port_fields "n" "Satellite" "10.0.0.1" "SSL" "default").2.2.2.1 rfl,
   (node_create_port_fields "n" "Satellite" "10.0.0.1" "Bogus" "default").2.2.2.2
     (by decide) (by decide)⟩

end LinstorApi
